import Mathlib

/-!
Verification of the FDC3 desktop-agent broker (src/src/background.js).

The broker state (the module-level mutable maps `connected`, `contexts`,
`contextListeners`, `intentListeners`, `tabChannels` and the loaded
`directory`) is embedded as an explicit record of association lists, and
each message handler of the background script is embedded as a function
from a state and a message payload to an `Outcome`: the state after the
handler ran, the externally visible effects it emitted in order
(messages posted to ports, windows opened, the resolver UI invocation,
badge updates), and the JavaScript exception, if any, at which the
handler stopped.  A thrown `TypeError` (a property read on
`undefined`/`null`) or `ReferenceError` (an undeclared identifier) ends
the handler; mutations and effects that happened before the throw are
kept, which matches the semantics of an exception escaping a message
listener.
-/

set_option autoImplicit false

deriving instance DecidableEq for Except

namespace FDC3

/-- Association-list lookup with decidable string keys; mirrors reading a
property of a JavaScript object (`obj[k]`), `none` standing for `undefined`. -/
def alook {α : Type} (k : String) : List (String × α) → Option α
  | [] => none
  | (k', v) :: rest => if k = k' then some v else alook k rest

/-- Association-list update; mirrors the JavaScript assignment `obj[k] = v`. -/
def setk {α : Type} (k : String) (v : α) : List (String × α) → List (String × α)
  | [] => [(k, v)]
  | (k', v') :: rest => if k = k' then (k, v) :: rest else (k', v') :: setk k v rest

/-- Association-list deletion.  Used to model `connected[id] = null` on
disconnect: afterwards the id no longer resolves to a live port. -/
def adel {α : Type} (k : String) : List (String × α) → List (String × α)
  | [] => []
  | (k', v) :: rest => if k = k' then adel k rest else (k', v) :: adel k rest

/-- One declared intent of a directory entry (`{name, displayName}`). -/
structure DirectoryIntent where
  name : String
  displayName : Option String := none
deriving DecidableEq, Repr

/-- One intent entry of a manifest (`{intent, type, template}`). -/
structure ManifestIntent where
  intent : String
  type : Option String
  template : String
deriving DecidableEq, Repr

/-- One entry of a manifest `params` map: the context `type` it applies to
and either a top-level field (`key`) or a nested identifier field (`id`). -/
structure ParamDef where
  type : String
  key : Option String := none
  id : Option String := none
deriving DecidableEq, Repr

/-- A parsed application manifest, the JSON shape the broker reads:
`{start_url, intents:[{intent,type,template}], templates:{name:pattern},
params:{name:{type,key|id}}}`.  Absent members are `none`. -/
structure Manifest where
  start_url : Option String := none
  intents : Option (List ManifestIntent) := none
  templates : Option (List (String × String)) := none
  params : Option (List (String × ParamDef)) := none
deriving DecidableEq, Repr

/-- An application-directory entry as the broker reads it. -/
structure DirectoryEntry where
  name : String
  start_url : Option String := none
  manifest : Option String := none
  intents : Option (List DirectoryIntent) := none
deriving DecidableEq, Repr

/-- A connected port: the sender identity, the hosting tab identity and the
`directoryData` catalog entry attached at connect time when the origin
matched a directory entry (absent otherwise). -/
structure Port where
  senderId : String
  tabId : Nat
  directoryData : Option DirectoryEntry := none
deriving DecidableEq, Repr

/-- The endpoint id of a port: `port.sender.id + port.sender.tab.id`
(string concatenation with the number coerced). -/
def portId (p : Port) : String :=
  p.senderId ++ toString p.tabId

/-- A context payload: the `type` tag, the remaining top-level string
fields, and the optional nested `id` object. -/
structure Context where
  type : String
  fields : List (String × String) := []
  id : Option (List (String × String)) := none
deriving DecidableEq, Repr

/-- Reading `ctx[k]` on a context object: the `type` property or one of the
other top-level fields. -/
def ctxGet (ctx : Context) (k : String) : Option String :=
  if k = "type" then some ctx.type else alook k ctx.fields

/-- Modelled from the spec: the statically imported system-channel list
(`src/src/system-channels`, not present under src/).  Per the spec each
catalog-defined channel has a string id and a visual identity used for the
membership badge; we keep the id and the badge colour. -/
structure SystemChannel where
  id : String
  color : String
deriving DecidableEq, Repr

/-- A JavaScript exception that escapes a handler. -/
inductive JsErr
  | typeError
  | referenceError
deriving DecidableEq, Repr

/-- A message posted to an endpoint: a `context` message (`data.context`
and the optional `source`, both absent when the code omits them) or an
`intent` message (`data.intent` and `data.context`). -/
inductive Msg
  | context (ctx : Option Context) (source : Option String)
  | intent (intentName : String) (ctx : Context)
deriving DecidableEq, Repr

/-- A resolution-time candidate: a live window (port) that registered an
intent listener (`{type:"window"}`) or a directory entry
(`{type:"directory"}`). -/
inductive Candidate
  | window (p : Port)
  | directory (e : DirectoryEntry)
deriving DecidableEq, Repr

/-- An externally visible action of a handler. -/
inductive Effect
  | post (target : String) (m : Msg)
  | openWindow (url : Option String) (name : String)
  | resolverUI (cands : List Candidate) (intentName : String) (ctx : Context)
  | setBadgeText (tabId : Nat)
  | setBadgeColor (color : String) (tabId : Nat)
deriving DecidableEq, Repr

/-- The broker's mutable state: the loaded channel list and directory, plus
the five module-level maps of background.js. -/
structure BrokerState where
  systemChannels : List SystemChannel
  directory : List DirectoryEntry
  connected : List (String × Port)
  channelOf : List (String × String)
  contexts : List (String × List Context)
  contextListeners : List (String × List String)
  intentListeners : List (String × List Port)
  tabChannels : List (String × String)
deriving DecidableEq, Repr

/-- Result of running one handler: the state when it returned or threw, the
effects emitted before that point, and the exception if one was thrown. -/
structure Outcome where
  state : BrokerState
  effects : List Effect
  error : Option JsErr
deriving DecidableEq, Repr

/-- Startup state: `contexts` and `contextListeners` hold the fixed
`default` channel plus every system channel; everything else is empty. -/
def initState (chans : List SystemChannel) (dir : List DirectoryEntry) : BrokerState :=
  { systemChannels := chans
    directory := dir
    connected := []
    channelOf := []
    contexts := ("default", []) :: chans.map (fun c => (c.id, ([] : List Context)))
    contextListeners := ("default", []) :: chans.map (fun c => (c.id, ([] : List String)))
    intentListeners := []
    tabChannels := [] }

/-- `contexts[ch][0]`: the current context of a channel, `none` when the
history is empty or the channel has no history list. -/
def currentContextOf (st : BrokerState) (ch : String) : Option Context :=
  match alook ch st.contexts with
  | none => none
  | some h => h.head?

/-- The broadcaster's channel: `connected[id].channel ? ... : "default"`.
Errors when the id is not connected (property read on `null`). -/
def currentChannelOf (st : BrokerState) (id : String) : Except JsErr String :=
  match alook id st.connected with
  | none => .error .typeError
  | some _ => .ok ((alook id st.channelOf).getD "default")

/-- Delivery loop of `broadcast`: `contextListeners[channel].forEach(l =>
connected[l].postMessage(...))`.  Posting stops with a `TypeError` at the
first listener id that is no longer connected. -/
def deliver (st : BrokerState) (m : Msg) : List String → List Effect × Option JsErr
  | [] => ([], none)
  | l :: rest =>
    match alook l st.connected with
    | none => ([], some .typeError)
    | some _ =>
      let r := deliver st m rest
      (Effect.post l m :: r.1, r.2)

/-- The `addContextListener` handler: push the endpoint id onto its current
channel's listener list (unconditionally — there is no membership check). -/
def addContextListener (st : BrokerState) (id : String) : Outcome :=
  match currentChannelOf st id with
  | .error e => ⟨st, [], some e⟩
  | .ok channel =>
    match alook channel st.contextListeners with
    | none => ⟨st, [], some .typeError⟩
    | some ls =>
      ⟨{ st with contextListeners := setk channel (ls ++ [id]) st.contextListeners }, [], none⟩

/-- The `addIntentListener` handler: create the per-intent list if missing
and append the port. -/
def addIntentListener (st : BrokerState) (p : Port) (name : String) : Outcome :=
  let cur := (alook name st.intentListeners).getD []
  ⟨{ st with intentListeners := setk name (cur ++ [p]) st.intentListeners }, [], none⟩

/-- The `broadcast` handler: resolve the sender's channel, prepend the
context to `contexts[channel]`, then post a `context` message carrying the
broadcast payload — just `{context}`, no `source` member — to every entry
of `contextListeners[channel]`, the sender included if listed. -/
def broadcast (st : BrokerState) (id : String) (ctx : Context) : Outcome :=
  match currentChannelOf st id with
  | .error e => ⟨st, [], some e⟩
  | .ok channel =>
    match alook channel st.contexts with
    | none => ⟨st, [], some .typeError⟩
    | some h =>
      let st' := { st with contexts := setk channel (ctx :: h) st.contexts }
      match alook channel st'.contextListeners with
      | none => ⟨st', [], some .typeError⟩
      | some ls =>
        let r := deliver st' (Msg.context (some ctx) none) ls
        ⟨st', r.1, r.2⟩

/-- The `joinChannel` handler.  `restoreOnly` is part of the message payload
(the content script sends it on reconnect) but the handler body never reads
it.  Order of operations as in the source: filter the id out of the
previous channel's listener list, create the target list if missing, push
the id, set the port's channel and the tab-to-channel record, set the badge
text, look the channel up in the system-channel list for the badge colour
(a `TypeError` on an unknown id), and finally post `contexts[chan][0]` to
the joining endpoint. -/
def joinChannel (st : BrokerState) (id : String) (chan : String) (restoreOnly : Bool) : Outcome :=
  let _ := restoreOnly
  match alook id st.connected with
  | none => ⟨st, [], some .typeError⟩
  | some p =>
    let prevChan := (alook id st.channelOf).getD "default"
    match alook prevChan st.contextListeners with
    | none => ⟨st, [], some .typeError⟩
    | some prevLs =>
      let cl1 := setk prevChan (prevLs.filter (fun x => x ≠ id)) st.contextListeners
      let cl2 := match alook chan cl1 with
        | none => setk chan [] cl1
        | some _ => cl1
      let cl3 := setk chan ((alook chan cl2).getD [] ++ [id]) cl2
      let st1 := { st with
        contextListeners := cl3
        channelOf := setk id chan st.channelOf
        tabChannels := setk (toString p.tabId) chan st.tabChannels }
      match st.systemChannels.find? (fun c => c.id == chan) with
      | none => ⟨st1, [Effect.setBadgeText p.tabId], some .typeError⟩
      | some sc =>
        match alook chan st1.contexts with
        | none => ⟨st1, [Effect.setBadgeText p.tabId, Effect.setBadgeColor sc.color p.tabId],
                   some .typeError⟩
        | some h =>
          ⟨st1, [Effect.setBadgeText p.tabId, Effect.setBadgeColor sc.color p.tabId,
                 Effect.post id (Msg.context h.head? none)], none⟩

/-- The `onDisconnect` listener: null out `connected[id]` (the port object
and its `channel` field are gone with it), filter the id out of every
channel's listener list, and filter every nonempty intent-listener list by
the disconnected port's tab id. -/
def onDisconnect (st : BrokerState) (p : Port) : BrokerState :=
  let id := portId p
  { st with
    connected := adel id st.connected
    channelOf := adel id st.channelOf
    contextListeners := st.contextListeners.map (fun e => (e.1, e.2.filter (fun x => x ≠ id)))
    intentListeners := st.intentListeners.map (fun e =>
      (e.1, if e.2.length > 0 then e.2.filter (fun q => q.tabId ≠ p.tabId) else e.2)) }

/-- `startsWithL pat l`: `pat` begins the character list `l`. -/
def startsWithL : List Char → List Char → Bool
  | [], _ => true
  | _ :: _, [] => false
  | p :: ps, c :: cs => p == c && startsWithL ps cs

/-- Replace the first occurrence of `pat` in the character list, as the
JavaScript `String.prototype.replace` does when given a string pattern
(later occurrences are untouched; no occurrence leaves the list as is). -/
def replFirstL (pat rep : List Char) : List Char → List Char
  | [] => []
  | c :: cs =>
    if startsWithL pat (c :: cs) then rep ++ (c :: cs).drop pat.length
    else c :: replFirstL pat rep cs

/-- `s.replace(pat, rep)` with a string pattern: only the first occurrence
of `pat` is replaced. -/
def replaceFirst (s pat rep : String) : String :=
  ⟨replFirstL pat.data rep.data s.data⟩

/-- Coercion a value undergoes when spliced into a string by `replace`:
JavaScript renders `undefined` as the text "undefined". -/
def jsToString : Option String → String
  | some s => s
  | none => "undefined"

/-- The param-extraction loop shared by both template-substitution sites:
for each manifest param whose declared `type` equals the context's `type`,
record `ctx[param.key]` (for a `key` param) or `ctx.id[param.id]` (for an
`id` param — a `TypeError` when the context has no `id` object); params of
another type, or with neither `key` nor `id`, record nothing.  Entries keep
the map's insertion order, and an extracted value may be `undefined`. -/
def buildParams (ctx : Context) : List (String × ParamDef) → Except JsErr (List (String × Option String))
  | [] => .ok []
  | (k, pd) :: rest =>
    if ctx.type = pd.type then
      match pd.key with
      | some kk => (buildParams ctx rest).map (fun r => (k, ctxGet ctx kk) :: r)
      | none =>
        match pd.id with
        | some idk =>
          match ctx.id with
          | none => .error .typeError
          | some idm => (buildParams ctx rest).map (fun r => (k, alook idk idm) :: r)
        | none => buildParams ctx rest
    else buildParams ctx rest

/-- Substitute the extracted params into a template:
`Object.keys(params).forEach(key => template = template.replace("${"+key+"}", params[key]))`. -/
def substTemplate (ps : List (String × Option String)) (tmpl : String) : String :=
  ps.foldl (fun t kv => replaceFirst t ("$\x7b" ++ kv.1 ++ "\x7d") (jsToString kv.2)) tmpl

/-- Does a directory entry declare the intent
(`entry.intents.filter(int => int.name === name).length > 0`)? -/
def declaresIntent (e : DirectoryEntry) (name : String) : Bool :=
  match e.intents with
  | none => false
  | some l => (l.filter (fun i => i.name == name)).length > 0

/-- The dedup probe of `raiseIntent`'s directory pass:
`list.find(app => app.directoryData.name === entry.name)`.  `find` scans in
order, so a listener with no `directoryData` raises a `TypeError` unless an
earlier listener already matched; `.ok true` means a match was found (the
entry is suppressed) and `.ok false` means none was. -/
def dedupFind (name : String) : List Port → Except JsErr Bool
  | [] => .ok false
  | p :: rest =>
    match p.directoryData with
    | none => .error .typeError
    | some d => if d.name == name then .ok true else dedupFind name rest

/-- Pass 2 of the candidate build: walk the directory, keeping each entry
that declares the intent unless the dedup probe over the live-listener list
finds a listener whose `directoryData.name` equals the entry's name.  When
no listener list exists for the intent (`!list`), every declaring entry is
kept and the probe never runs. -/
def dirCands (listOpt : Option (List Port)) (intentName : String) :
    List DirectoryEntry → Except JsErr (List DirectoryEntry)
  | [] => .ok []
  | e :: rest =>
    if declaresIntent e intentName then
      match listOpt with
      | none => (dirCands listOpt intentName rest).map (fun r => e :: r)
      | some ps =>
        match dedupFind e.name ps with
        | .error err => .error err
        | .ok dup =>
          (dirCands listOpt intentName rest).map (fun r => if dup then r else e :: r)
    else dirCands listOpt intentName rest

/-- The live window listeners registered for an intent name
(`intentListeners[name]`, or nothing when the list does not exist). -/
def windowCandidates (st : BrokerState) (name : String) : List Port :=
  (alook name st.intentListeners).getD []

/-- The candidate list of `raiseIntent`: first every live listener for the
intent in registration order (`{type:"window"}`), then the surviving
directory entries (`{type:"directory"}`). -/
def buildCandidates (st : BrokerState) (intentName : String) : Except JsErr (List Candidate) :=
  let listOpt := alook intentName st.intentListeners
  match dirCands listOpt intentName st.directory with
  | .error e => .error e
  | .ok ds => .ok ((listOpt.getD []).map Candidate.window ++ ds.map Candidate.directory)

/-- The single-directory-candidate launch path of `raiseIntent` after the
manifest arrives: `mD.intents.find(...)` throws a `TypeError` when the
manifest has no `intents`, and otherwise the param loop reads
`contentManifest.params` — `contentManifest` is an undeclared identifier,
so a `ReferenceError` is thrown before any substitution; no window is ever
opened on this path. -/
def raiseLaunchDirectory (mD : Manifest) : List Effect × Option JsErr :=
  match mD.intents with
  | none => ([], some .typeError)
  | some _ => ([], some .referenceError)

/-- The `raiseIntent` handler.  It reads no state of the sending port and
mutates no broker state; it only emits effects (or throws).  `fetch` is the
manifest collaborator: `none` stands for a failed or never-resolving fetch,
whose `.then` continuation simply never runs. -/
def raiseIntent (st : BrokerState) (intentName : String) (ctx : Context)
    (fetch : String → Option Manifest) : Outcome :=
  match buildCandidates st intentName with
  | .error e => ⟨st, [], some e⟩
  | .ok [] => ⟨st, [], none⟩
  | .ok [Candidate.window w] =>
    ⟨st, [Effect.post (portId w) (Msg.intent intentName ctx)], none⟩
  | .ok [Candidate.directory e] =>
    match e.manifest with
    | none => ⟨st, [], none⟩
    | some url =>
      match fetch url with
      | none => ⟨st, [], none⟩
      | some mD =>
        let r := raiseLaunchDirectory mD
        ⟨st, r.1, r.2⟩
  | .ok cs => ⟨st, [Effect.resolverUI cs intentName ctx], none⟩

/-- The directory branch of `resolveIntent`, applied to the fetched
manifest.  With no `intents` member the manifest's `start_url` is opened
directly.  Otherwise: find the intent entry matching the intent name (and
the context type when the entry declares one), extract the params, then
read `mD.templates[intentData.template]` — a `TypeError` when no intent
entry matched or the manifest has no `templates` — and substitute.  A
missing template leaves `template` undefined: with no params to substitute
the open proceeds on `undefined`, with params the `replace` call throws. -/
def resolveIntentDirectory (mD : Manifest) (name intentName : String) (ctx : Context) :
    List Effect × Option JsErr :=
  match mD.intents with
  | none => ([Effect.openWindow mD.start_url name], none)
  | some ints =>
    let intentData := ints.find? (fun i =>
      match i.type with
      | some t => t == ctx.type && i.intent == intentName
      | none => i.intent == intentName)
    match mD.params with
    | none => ([], some .typeError)
    | some pdefs =>
      match buildParams ctx pdefs with
      | .error e => ([], some e)
      | .ok ps =>
        match intentData with
        | none => ([], some .typeError)
        | some idata =>
          match mD.templates with
          | none => ([], some .typeError)
          | some tms =>
            match alook idata.template tms with
            | none =>
              if ps.isEmpty then ([Effect.openWindow none name], none)
              else ([], some .typeError)
            | some tmpl => ([Effect.openWindow (some (substTemplate ps tmpl)) name], none)

/-- The window branch of `resolveIntent`: search the intent's listener list
(an empty list when none exists) for a port with the selected tab id.  When
one is found the intent message is posted to it and the following
`win.focus()` throws a `TypeError` (a runtime port has no `focus` method);
when none is found the handler does nothing at all. -/
def resolveIntentWindow (st : BrokerState) (selTabId : Nat) (intentName : String)
    (ctx : Context) : Outcome :=
  let winList := (alook intentName st.intentListeners).getD []
  match winList.find? (fun item => item.tabId == selTabId) with
  | some w => ⟨st, [Effect.post (portId w) (Msg.intent intentName ctx)], some .typeError⟩
  | none => ⟨st, [], none⟩

/-- Does a live listener's matched catalog entry carry the given name? -/
def nameMatches (n : String) (p : Port) : Bool :=
  match p.directoryData with
  | some d => d.name == n
  | none => false

/-- The candidate list exactly as claim C1 words it: every live listener
for the intent in registration order, then every directory entry declaring
the intent except those whose name equals the name of some live-listener
candidate's matched catalog entry.  Stated from the claim, to be compared
with `buildCandidates`, which is stated from the source. -/
def candidatesSpec (st : BrokerState) (intentName : String) : List Candidate :=
  let ws := windowCandidates st intentName
  ws.map Candidate.window ++
    (st.directory.filter (fun e =>
      declaresIntent e intentName && !(ws.any (nameMatches e.name)))).map Candidate.directory

theorem alook_setk_self {α : Type} (k : String) (v : α) (m : List (String × α)) :
    alook k (setk k v m) = some v := by
  induction m with
  | nil => simp [alook, setk]
  | cons h t ih =>
    by_cases hk : k = h.1
    · simp [alook, setk, hk]
    · simpa [alook, setk, hk] using ih

theorem alook_setk_ne {α : Type} {k k' : String} (v : α) (m : List (String × α))
    (h : k ≠ k') : alook k (setk k' v m) = alook k m := by
  induction m with
  | nil => simp [alook, setk, h]
  | cons hd t ih =>
    by_cases hk : k' = hd.1
    · subst hk
      simp [alook, setk, h]
    · by_cases hk2 : k = hd.1
      · simp [alook, setk, hk, hk2]
      · simpa [alook, setk, hk, hk2] using ih

theorem alook_filter_listeners (k id : String) (m : List (String × List String)) :
    alook k (m.map (fun e => (e.1, e.2.filter (fun x => x ≠ id)))) =
      (alook k m).map (fun ls => ls.filter (fun x => x ≠ id)) := by
  induction m with
  | nil => simp [alook]
  | cons hd t ih =>
    by_cases hk : k = hd.1
    · simp [alook, hk]
    · simpa [alook, hk] using ih

theorem alook_filter_intents (k : String) (tid : Nat) (m : List (String × List Port)) :
    alook k (m.map (fun e =>
        (e.1, if e.2.length > 0 then e.2.filter (fun q => q.tabId ≠ tid) else e.2))) =
      (alook k m).map (fun qs =>
        if qs.length > 0 then qs.filter (fun q => q.tabId ≠ tid) else qs) := by
  induction m with
  | nil => simp [alook]
  | cons hd t ih =>
    by_cases hk : k = hd.1
    · simp [alook, hk]
    · simpa [alook, hk] using ih

theorem deliver_ok (st : BrokerState) (m : Msg) (ls : List String)
    (h : ∀ l ∈ ls, (alook l st.connected).isSome) :
    deliver st m ls = (ls.map (fun l => Effect.post l m), none) := by
  induction ls with
  | nil => simp [deliver]
  | cons l rest ih =>
    have hl : (alook l st.connected).isSome := h l (by simp)
    obtain ⟨p, hp⟩ := Option.isSome_iff_exists.mp hl
    have hrest := ih (fun x hx => h x (by simp [hx]))
    simp [deliver, hp, hrest]

theorem deliver_targets {st : BrokerState} {m m' : Msg} {ls : List String} {t : String}
    (h : Effect.post t m' ∈ (deliver st m ls).1) : t ∈ ls := by
  induction ls with
  | nil => simp [deliver] at h
  | cons l rest ih =>
    rw [deliver] at h
    cases hc : alook l st.connected with
    | none => rw [hc] at h; simp at h
    | some p =>
      rw [hc] at h
      simp only [List.mem_cons] at h
      rcases h with h | h
      · injection h with h1 h2
        subst h1
        exact List.mem_cons_self _ _
      · exact List.mem_cons_of_mem _ (ih h)

theorem dedupFind_ok (n : String) (ps : List Port)
    (h : ∀ p ∈ ps, p.directoryData.isSome) :
    dedupFind n ps = .ok (ps.any (nameMatches n)) := by
  induction ps with
  | nil => simp [dedupFind]
  | cons p rest ih =>
    obtain ⟨d, hd⟩ := Option.isSome_iff_exists.mp (h p (by simp))
    have hrest := ih (fun x hx => h x (by simp [hx]))
    by_cases hn : d.name == n
    · simp [dedupFind, hd, hn, nameMatches]
    · simp [dedupFind, hd, hn, hrest, nameMatches]

theorem dirCands_none (intentName : String) (dir : List DirectoryEntry) :
    dirCands none intentName dir = .ok (dir.filter (fun e => declaresIntent e intentName)) := by
  induction dir with
  | nil => simp [dirCands]
  | cons e rest ih =>
    by_cases hd : declaresIntent e intentName
    · simp [dirCands, hd, ih, List.filter_cons, Except.map]
    · simp [dirCands, hd, ih, List.filter_cons]

theorem dirCands_some (intentName : String) (ps : List Port) (dir : List DirectoryEntry)
    (h : ∀ p ∈ ps, p.directoryData.isSome) :
    dirCands (some ps) intentName dir =
      .ok (dir.filter (fun e =>
        declaresIntent e intentName && !(ps.any (nameMatches e.name)))) := by
  induction dir with
  | nil => simp [dirCands]
  | cons e rest ih =>
    by_cases hd : declaresIntent e intentName
    · by_cases hdup : ps.any (nameMatches e.name)
      · simp [dirCands, hd, dedupFind_ok e.name ps h, hdup, ih, List.filter_cons, Except.map]
      · simp [dirCands, hd, dedupFind_ok e.name ps h, hdup, ih, List.filter_cons, Except.map]
    · simp [dirCands, hd, ih, List.filter_cons]

/-- A live listener with no matched catalog entry (its origin was not in
the directory at connect time). -/
def c1port : Port := { senderId := "s", tabId := 1 }

/-- A directory entry declaring intent "I". -/
def c1entry : DirectoryEntry := { name := "A", intents := some [{ name := "I" }] }

/-- State with one catalog-less live listener for "I" and one directory
entry declaring "I". -/
def c1st : BrokerState :=
  { systemChannels := [], directory := [c1entry], connected := [("s1", c1port)],
    channelOf := [], contexts := [("default", [])], contextListeners := [("default", [])],
    intentListeners := [("I", [c1port])], tabChannels := [] }

/-- Claim C1, counterexample: at this state — a single live listener with
no matched catalog entry and a directory entry declaring the intent — the
dedup probe reads `.name` of `undefined` and the candidate build throws a
`TypeError` instead of producing the list the claim describes (the live
listener followed by the directory entry, which no live candidate's
catalog entry suppresses). -/
theorem c1_counterexample :
    buildCandidates c1st "I" = .error JsErr.typeError ∧
    buildCandidates c1st "I" ≠ .ok (candidatesSpec c1st "I") ∧
    candidatesSpec c1st "I" = [Candidate.window c1port, Candidate.directory c1entry] := by
  decide

/-- Claim C1 (amended): provided every live listener registered for the
intent has a matched catalog entry, the candidate list is built exactly as
the claim states — first every live listener in registration order, then
every directory entry declaring the intent except those whose name equals
some live-listener candidate's matched catalog entry name.  Without that
proviso the rule is not guaranteed: for each declaring entry the dedup
probe scans the listener list in order and throws a `TypeError` if it
reaches a catalog-less listener before finding a name match (the
counterexample is the single-listener instance; when an earlier listener
already matches, `find` returns first and the build still succeeds). -/
theorem c1_candidates_built (st : BrokerState) (intentName : String)
    (h : ∀ p ∈ windowCandidates st intentName, p.directoryData.isSome) :
    buildCandidates st intentName = .ok (candidatesSpec st intentName) := by
  unfold windowCandidates at h
  cases hl : alook intentName st.intentListeners with
  | none =>
    rw [hl] at h
    simp only [buildCandidates, candidatesSpec, windowCandidates, hl, dirCands_none,
      Option.getD_none, List.map_nil, List.nil_append, List.any_nil, Bool.not_false,
      Bool.and_true]
  | some ps =>
    rw [hl] at h
    simp only [Option.getD_some] at h
    simp only [buildCandidates, candidatesSpec, windowCandidates, hl,
      dirCands_some intentName ps st.directory h, Option.getD_some]

/-- A live listener for "I" whose origin matched catalog entry "A". -/
def c1wport : Port := { senderId := "s", tabId := 1, directoryData := some { name := "A" } }

/-- State where the live listener's catalog entry "A" also declares "I"
(so it is suppressed) while entry "B" survives. -/
def c1wst : BrokerState :=
  { systemChannels := [],
    directory := [{ name := "A", intents := some [{ name := "I" }] },
                  { name := "B", intents := some [{ name := "I" }] }],
    connected := [("s1", c1wport)], channelOf := [], contexts := [("default", [])],
    contextListeners := [("default", [])], intentListeners := [("I", [c1wport])],
    tabChannels := [] }

/-- Claim C1, witness: the amended theorem applied at a concrete state in
which every live listener carries a catalog entry. -/
theorem c1_candidates_built_witness :
    (∀ p ∈ windowCandidates c1wst "I", p.directoryData.isSome) ∧
    buildCandidates c1wst "I" = .ok (candidatesSpec c1wst "I") :=
  ⟨by decide, c1_candidates_built c1wst "I" (by decide)⟩

/-- A broadcast context payload. -/
def c2ctx : Context := { type := "fdc3.instrument" }

/-- State where broadcaster "b1" is itself a listener of its channel,
alongside "c2". -/
def c2st : BrokerState :=
  { systemChannels := [], directory := [],
    connected := [("b1", { senderId := "b", tabId := 1 }), ("c2", { senderId := "c", tabId := 2 })],
    channelOf := [], contexts := [("default", [])],
    contextListeners := [("default", ["b1", "c2"])], intentListeners := [], tabChannels := [] }

/-- Claim C2, counterexample: the broadcaster receives its own broadcast
back (the delivery loop never excludes the sender) and the delivered
message carries no `source` member at all — the handler forwards the
payload as `{context}` only. -/
theorem c2_counterexample :
    Effect.post "b1" (Msg.context (some c2ctx) none) ∈ (broadcast c2st "b1" c2ctx).effects ∧
    (broadcast c2st "b1" c2ctx).effects =
      [Effect.post "b1" (Msg.context (some c2ctx) none),
       Effect.post "c2" (Msg.context (some c2ctx) none)] := by
  decide

/-- Claim C2 (amended): a broadcast prepends the context to the channel's
history — the channel's current context (history index 0) equals the
broadcast context immediately afterward — and a `context` message carrying
`{context}` (with no `source` member) is delivered once per entry of the
channel's listener list, the broadcaster itself included whenever it is
listed; the sender is not excluded. -/
theorem c2_broadcast_delivers (st : BrokerState) (id : String) (ctx : Context)
    (ch : String) (hist : List Context) (ls : List String)
    (hconn : (alook id st.connected).isSome)
    (hch : ch = (alook id st.channelOf).getD "default")
    (hhist : alook ch st.contexts = some hist)
    (hls : alook ch st.contextListeners = some ls)
    (hlive : ∀ l ∈ ls, (alook l st.connected).isSome) :
    broadcast st id ctx =
      ⟨{ st with contexts := setk ch (ctx :: hist) st.contexts },
       ls.map (fun l => Effect.post l (Msg.context (some ctx) none)), none⟩ ∧
    currentContextOf (broadcast st id ctx).state ch = some ctx := by
  obtain ⟨p, hp⟩ := Option.isSome_iff_exists.mp hconn
  have hdel := deliver_ok { st with contexts := setk ch (ctx :: hist) st.contexts }
    (Msg.context (some ctx) none) ls hlive
  have hbc : broadcast st id ctx =
      ⟨{ st with contexts := setk ch (ctx :: hist) st.contexts },
       ls.map (fun l => Effect.post l (Msg.context (some ctx) none)), none⟩ := by
    simp only [broadcast, currentChannelOf, hp, ← hch, hhist, hls, hdel]
  refine ⟨hbc, ?_⟩
  rw [hbc]
  simp [currentContextOf, alook_setk_self]

/-- Claim C2, witness: the amended theorem applied at the concrete state
above. -/
theorem c2_broadcast_delivers_witness :
    broadcast c2st "b1" c2ctx =
      ⟨{ c2st with contexts := setk "default" (c2ctx :: []) c2st.contexts },
       ["b1", "c2"].map (fun l => Effect.post l (Msg.context (some c2ctx) none)), none⟩ ∧
    currentContextOf (broadcast c2st "b1" c2ctx).state "default" = some c2ctx :=
  c2_broadcast_delivers c2st "b1" c2ctx "default" [] ["b1", "c2"]
    (by decide) (by decide) (by decide) (by decide) (by decide)

/-- The context sitting at index 0 of channel "red"'s history. -/
def c3ctx : Context := { type := "fdc3.contact" }

/-- State with system channel "red" holding one context, and "e1" connected
on the default channel. -/
def c3st : BrokerState :=
  { systemChannels := [{ id := "red", color := "#f00" }], directory := [],
    connected := [("e1", { senderId := "e", tabId := 1 })], channelOf := [],
    contexts := [("default", []), ("red", [c3ctx])],
    contextListeners := [("default", ["e1"]), ("red", [])],
    intentListeners := [], tabChannels := [] }

/-- Claim C3, counterexample: a join with `restoreOnly = true` still posts
the channel's current context to the joining endpoint — the handler never
reads the flag. -/
theorem c3_counterexample :
    (joinChannel c3st "e1" "red" true).effects =
      [Effect.setBadgeText 1, Effect.setBadgeColor "#f00" 1,
       Effect.post "e1" (Msg.context (some c3ctx) none)] := by
  decide

/-- Claim C3 (amended): for every join whose target channel is a declared
system channel with an initialized history, exactly one `context` message —
carrying the channel's current context (history index 0, or empty when
the history is empty) — is delivered to the joining endpoint, for BOTH
values of `restoreOnly`: the handler ignores the flag. -/
theorem c3_join_always_delivers (st : BrokerState) (id chan : String) (ro : Bool)
    (p : Port) (prevLs : List String) (sc : SystemChannel) (h : List Context)
    (hconn : alook id st.connected = some p)
    (hprev : alook ((alook id st.channelOf).getD "default") st.contextListeners = some prevLs)
    (hsc : st.systemChannels.find? (fun c => c.id == chan) = some sc)
    (hctx : alook chan st.contexts = some h) :
    (joinChannel st id chan ro).error = none ∧
    (joinChannel st id chan ro).effects =
      [Effect.setBadgeText p.tabId, Effect.setBadgeColor sc.color p.tabId,
       Effect.post id (Msg.context h.head? none)] := by
  simp [joinChannel, hconn, hprev, hsc, hctx]

/-- Claim C3, witness: the amended theorem applied with
`restoreOnly = true` at the concrete state above. -/
theorem c3_join_always_delivers_witness :
    (joinChannel c3st "e1" "red" true).error = none ∧
    (joinChannel c3st "e1" "red" true).effects =
      [Effect.setBadgeText 1, Effect.setBadgeColor "#f00" 1,
       Effect.post "e1" (Msg.context ([c3ctx].head?) none)] :=
  c3_join_always_delivers c3st "e1" "red" true { senderId := "e", tabId := 1 } ["e1"]
    { id := "red", color := "#f00" } [c3ctx] (by decide) (by decide) (by decide) (by decide)

/-- A raised context for the no-handler scenario. -/
def c5ctx : Context := { type := "fdc3.instrument" }

/-- State with no live listener for "Nope" and a directory whose only
entry declares a different intent. -/
def c5st : BrokerState :=
  { systemChannels := [],
    directory := [{ name := "A", intents := some [{ name := "Other" }] }],
    connected := [("r1", { senderId := "r", tabId := 1 })], channelOf := [],
    contexts := [("default", [])], contextListeners := [("default", [])],
    intentListeners := [], tabChannels := [] }

/-- Claim C5: zero-candidate `raiseIntent` evaluated at the failing input.
The zero-candidate branch of the handler is an empty stub (only the
comment "show message indicating no handler for the intent..."), so the
whole raise is a silent no-op: no resolver UI, but also no message of any
kind back to the raiser — the NoHandler outcome the claim promises is
never reported. -/
theorem c5_no_handler_silent :
    raiseIntent c5st "Nope" c5ctx (fun _ => none) = ⟨c5st, [], none⟩ := by
  decide

/-- Claim C6: when the intent's listener list is exactly one window and the
directory pass contributes no candidate, the `intent` message is posted
directly to that window and the resolver-UI collaborator is never
invoked. -/
theorem c6_single_window_direct (st : BrokerState) (nm : String) (ctx : Context)
    (fetch : String → Option Manifest) (w : Port)
    (hw : alook nm st.intentListeners = some [w])
    (hd : dirCands (some [w]) nm st.directory = .ok []) :
    raiseIntent st nm ctx fetch =
      ⟨st, [Effect.post (portId w) (Msg.intent nm ctx)], none⟩ ∧
    ∀ cs i c, Effect.resolverUI cs i c ∉ (raiseIntent st nm ctx fetch).effects := by
  have hb : buildCandidates st nm = .ok [Candidate.window w] := by
    simp [buildCandidates, hw, hd]
  have hr : raiseIntent st nm ctx fetch =
      ⟨st, [Effect.post (portId w) (Msg.intent nm ctx)], none⟩ := by
    simp [raiseIntent, hb]
  refine ⟨hr, ?_⟩
  rw [hr]
  simp

/-- The single live listener for "I", whose catalog entry "A" also
declares "I" — so the directory entry is deduped away. -/
def c6w : Port := { senderId := "s", tabId := 1, directoryData := some { name := "A" } }

/-- State with exactly one live listener and no surviving directory
candidate. -/
def c6st : BrokerState :=
  { systemChannels := [],
    directory := [{ name := "A", intents := some [{ name := "I" }] }],
    connected := [("s1", c6w)], channelOf := [], contexts := [("default", [])],
    contextListeners := [("default", [])], intentListeners := [("I", [c6w])],
    tabChannels := [] }

/-- The context raised in the C6 witness. -/
def c6ctx : Context := { type := "fdc3.instrument" }

/-- Claim C6, witness: the theorem applied at the concrete
one-live-listener state. -/
theorem c6_single_window_direct_witness :
    raiseIntent c6st "I" c6ctx (fun _ => none) =
      ⟨c6st, [Effect.post (portId c6w) (Msg.intent "I" c6ctx)], none⟩ :=
  (c6_single_window_direct c6st "I" c6ctx (fun _ => none) c6w (by decide) (by decide)).1

theorem mem_filter_ne {ls : List String} {id x : String}
    (h : x ∈ ls.filter (fun y => y ≠ id)) : x ≠ id := by
  have := List.of_mem_filter h
  simpa using this

theorem disconnect_not_listed (st : BrokerState) (p : Port) (ch : String) (ls : List String)
    (h : alook ch (onDisconnect st p).contextListeners = some ls) : portId p ∉ ls := by
  simp only [onDisconnect, alook_filter_listeners] at h
  cases hc : alook ch st.contextListeners with
  | none => rw [hc] at h; simp at h
  | some ls0 =>
    rw [hc] at h
    simp only [Option.map_some'] at h
    cases h
    intro hmem
    exact (mem_filter_ne hmem) rfl

theorem broadcast_post_targets {st : BrokerState} {id2 t : String} {ctx : Context} {m : Msg}
    (h : Effect.post t m ∈ (broadcast st id2 ctx).effects) :
    ∃ ch ls, alook ch st.contextListeners = some ls ∧ t ∈ ls := by
  unfold broadcast at h
  split at h
  · simp at h
  · split at h
    · simp at h
    · dsimp only at h
      split at h
      · simp at h
      · rename_i lsOpt ls hls
        exact ⟨_, ls, hls, deliver_targets (by simpa using h)⟩

/-- Claim C7: after disconnect cleanup, the endpoint's id is in no
channel's context-listener list, no port with its tab id remains in any
intent's listener list, every post a later broadcast emits targets a
listed listener — never the disconnected id — and the window candidates of
a later `raiseIntent` never carry the disconnected tab. -/
theorem c7_disconnect_cleanup (st : BrokerState) (p : Port) :
    (∀ ch ls, alook ch (onDisconnect st p).contextListeners = some ls → portId p ∉ ls) ∧
    (∀ nm q, q ∈ windowCandidates (onDisconnect st p) nm → q.tabId ≠ p.tabId) ∧
    (∀ id2 ctx m, Effect.post (portId p) m ∉ (broadcast (onDisconnect st p) id2 ctx).effects) := by
  refine ⟨fun ch ls h => disconnect_not_listed st p ch ls h, ?_, ?_⟩
  · intro nm q hq
    simp only [windowCandidates, onDisconnect, alook_filter_intents] at hq
    cases hc : alook nm st.intentListeners with
    | none => rw [hc] at hq; simp at hq
    | some qs =>
      rw [hc] at hq
      simp only [Option.map_some', Option.getD_some] at hq
      by_cases hlen : qs.length > 0
      · rw [if_pos hlen] at hq
        have := List.of_mem_filter hq
        simpa using this
      · rw [if_neg hlen] at hq
        have hnil : qs = [] := List.length_eq_zero.mp (Nat.eq_zero_of_not_pos hlen)
        rw [hnil] at hq
        simp at hq
  · intro id2 ctx m hmem
    obtain ⟨ch, ls, hls, hin⟩ := broadcast_post_targets hmem
    exact disconnect_not_listed st p ch ls hls hin

/-- The disconnecting port of the C7 witness (endpoint id "s1", tab 1). -/
def c7p : Port := { senderId := "s", tabId := 1 }

/-- State before the C7 disconnect: "s1" listens on default and its tab
has an intent listener alongside one from tab 2. -/
def c7st : BrokerState :=
  { systemChannels := [], directory := [],
    connected := [("s1", c7p), ("x2", { senderId := "x", tabId := 2 })],
    channelOf := [], contexts := [("default", [])],
    contextListeners := [("default", ["x2", "s1"])],
    intentListeners := [("I", [c7p, { senderId := "x", tabId := 2 }])],
    tabChannels := [] }

/-- Claim C7, witness: the theorem applied at the concrete state, its
conditional conclusions discharged at the surviving lists. -/
theorem c7_disconnect_cleanup_witness :
    portId c7p ∉ ["x2"] ∧
    ({ senderId := "x", tabId := 2 } : Port).tabId ≠ c7p.tabId ∧
    Effect.post (portId c7p) (Msg.context (some c5ctx) none) ∉
      (broadcast (onDisconnect c7st c7p) "x2" c5ctx).effects :=
  ⟨(c7_disconnect_cleanup c7st c7p).1 "default" ["x2"] (by decide),
   (c7_disconnect_cleanup c7st c7p).2.1 "I" { senderId := "x", tabId := 2 } (by decide),
   (c7_disconnect_cleanup c7st c7p).2.2 "x2" c5ctx (Msg.context (some c5ctx) none)⟩

/-- The context broadcast in the C8 duplicate-delivery scenario. -/
def c8ctx : Context := { type := "fdc3.position" }

/-- State right after the FIRST `addContextListener` call of "e1": it is
listed once on its current (default) channel; "b2" is another connected
endpoint that will broadcast. -/
def c8st : BrokerState :=
  { systemChannels := [], directory := [],
    connected := [("e1", { senderId := "e", tabId := 1 }), ("b2", { senderId := "b", tabId := 2 })],
    channelOf := [], contexts := [("default", [])],
    contextListeners := [("default", ["e1"])], intentListeners := [], tabChannels := [] }

/-- Claim C8, counterexample: a second `addContextListener` call pushes a
duplicate entry — the listener list does not stay equal to what it was
after the first call — and a later broadcast then delivers the same
context message to "e1" twice. -/
theorem c8_counterexample :
    alook "default" (addContextListener c8st "e1").state.contextListeners = some ["e1", "e1"] ∧
    (addContextListener c8st "e1").state.contextListeners ≠ c8st.contextListeners ∧
    (broadcast (addContextListener c8st "e1").state "b2" c8ctx).effects =
      [Effect.post "e1" (Msg.context (some c8ctx) none),
       Effect.post "e1" (Msg.context (some c8ctx) none)] := by
  decide

/-- Claim C8 (amended): `addContextListener` appends the endpoint id to its
current channel's listener list unconditionally on every call — it is not
idempotent; a repeated call adds a duplicate entry, and later broadcasts
deliver one copy of the context message per entry. -/
theorem c8_add_listener_appends (st : BrokerState) (id ch : String) (ls : List String)
    (hconn : (alook id st.connected).isSome)
    (hch : ch = (alook id st.channelOf).getD "default")
    (hls : alook ch st.contextListeners = some ls) :
    addContextListener st id =
      ⟨{ st with contextListeners := setk ch (ls ++ [id]) st.contextListeners }, [], none⟩ := by
  obtain ⟨p, hp⟩ := Option.isSome_iff_exists.mp hconn
  simp only [addContextListener, currentChannelOf, hp, ← hch, hls]

/-- Claim C8, witness: the second call at the concrete post-first-call
state appends — yielding the duplicate. -/
theorem c8_add_listener_appends_witness :
    addContextListener c8st "e1" =
      ⟨{ c8st with contextListeners := setk "default" (["e1"] ++ ["e1"]) c8st.contextListeners },
       [], none⟩ :=
  c8_add_listener_appends c8st "e1" "default" ["e1"] (by decide) (by decide) (by decide)

/-- State for the unknown-channel join: one declared system channel "red",
endpoint "e1" connected on default. -/
def c9st : BrokerState :=
  { systemChannels := [{ id := "red", color := "#f00" }], directory := [],
    connected := [("e1", { senderId := "e", tabId := 1 })], channelOf := [],
    contexts := [("default", []), ("red", [])],
    contextListeners := [("default", ["e1"]), ("red", [])],
    intentListeners := [], tabChannels := [] }

/-- Claim C9, counterexample: joining the undeclared channel id "zzz" does
record the mutations, but the handler then throws a `TypeError` (the
badge-colour read on the failed system-channel lookup), so the join does
not complete without error. -/
theorem c9_counterexample :
    (joinChannel c9st "e1" "zzz" false).error = some JsErr.typeError ∧
    alook "zzz" (joinChannel c9st "e1" "zzz" false).state.contextListeners = some ["e1"] ∧
    alook "1" (joinChannel c9st "e1" "zzz" false).state.tabChannels = some "zzz" := by
  decide

/-- Claim C9 (amended): for a channel id outside the declared system
channels, join performs the mutations the claim lists — the unknown id's
listener list is created with the endpoint in it, the port's channel and
the tab-to-channel association are recorded — but the handler then throws
a `TypeError` at the badge-colour lookup and delivers no context message:
the join does not complete without error. -/
theorem c9_join_unknown_channel (st : BrokerState) (id chan : String) (ro : Bool)
    (p : Port) (prevLs : List String)
    (hconn : alook id st.connected = some p)
    (hprev : alook ((alook id st.channelOf).getD "default") st.contextListeners = some prevLs)
    (hnew : alook chan st.contextListeners = none)
    (hsc : st.systemChannels.find? (fun c => c.id == chan) = none) :
    alook chan (joinChannel st id chan ro).state.contextListeners = some [id] ∧
    alook id (joinChannel st id chan ro).state.channelOf = some chan ∧
    alook (toString p.tabId) (joinChannel st id chan ro).state.tabChannels = some chan ∧
    (joinChannel st id chan ro).effects = [Effect.setBadgeText p.tabId] ∧
    (joinChannel st id chan ro).error = some JsErr.typeError := by
  have hne : chan ≠ (alook id st.channelOf).getD "default" := by
    intro he
    rw [he, hprev] at hnew
    exact Option.noConfusion hnew
  have hcl1 : alook chan (setk ((alook id st.channelOf).getD "default")
      (prevLs.filter (fun x => !decide (x = id))) st.contextListeners) = none := by
    rw [alook_setk_ne _ _ hne, hnew]
  simp [joinChannel, hconn, hprev, hsc, hcl1, alook_setk_self]

/-- Claim C9, witness: the amended theorem applied at the concrete state
and the undeclared id "zzz". -/
theorem c9_join_unknown_channel_witness :
    alook "zzz" (joinChannel c9st "e1" "zzz" false).state.contextListeners = some ["e1"] ∧
    alook "e1" (joinChannel c9st "e1" "zzz" false).state.channelOf = some "zzz" ∧
    alook (toString (1 : Nat)) (joinChannel c9st "e1" "zzz" false).state.tabChannels = some "zzz" ∧
    (joinChannel c9st "e1" "zzz" false).effects = [Effect.setBadgeText 1] ∧
    (joinChannel c9st "e1" "zzz" false).error = some JsErr.typeError :=
  c9_join_unknown_channel c9st "e1" "zzz" false { senderId := "e", tabId := 1 } ["e1"]
    (by decide) (by decide) (by decide) (by decide)

/-- Claim C10: a `resolveIntent` window selection whose tab has no
registered listener for the intent (the search of the intent's listener
list — an empty list when none exists — finds nothing) is a silent no-op:
state unchanged, no message posted, no error. -/
theorem c10_resolve_window_noop (st : BrokerState) (selTabId : Nat) (nm : String) (ctx : Context)
    (h : ∀ q ∈ (alook nm st.intentListeners).getD [], q.tabId ≠ selTabId) :
    resolveIntentWindow st selTabId nm ctx = ⟨st, [], none⟩ := by
  have hf : ((alook nm st.intentListeners).getD []).find?
      (fun item => item.tabId == selTabId) = none := by
    apply List.find?_eq_none.mpr
    intro q hq
    simpa using h q hq
  simp [resolveIntentWindow, hf]

/-- State for the C10 witness: the intent has no listener list at all. -/
def c10st : BrokerState :=
  { systemChannels := [], directory := [], connected := [], channelOf := [],
    contexts := [("default", [])], contextListeners := [("default", [])],
    intentListeners := [], tabChannels := [] }

/-- The context passed with the C10 resolution. -/
def c10ctx : Context := { type := "fdc3.instrument" }

/-- Claim C10, witness: the theorem applied where the intent has no
listener list at all. -/
theorem c10_resolve_window_noop_witness :
    resolveIntentWindow c10st 7 "I" c10ctx = ⟨c10st, [], none⟩ :=
  c10_resolve_window_noop c10st 7 "I" c10ctx (by decide)

/-- The manifest of the claim's worked example: intent ViewChart of
context type security, template "app://open?sym=${symbol}" and one param
mapping the context field ticker to symbol. -/
def c4mD : Manifest :=
  { start_url := some "https://chart.example/index.html",
    intents := some [{ intent := "ViewChart", type := some "security", template := "chart" }],
    templates := some [("chart", "app://open?sym=$\x7bsymbol\x7d")],
    params := some [("symbol", { type := "security", key := some "ticker" })] }

/-- The context of the worked example. -/
def c4ctx : Context := { type := "security", fields := [("ticker", "MSFT")] }

/-- The single directory candidate for ViewChart. -/
def c4entry : DirectoryEntry :=
  { name := "ChartApp", start_url := some "https://chart.example/index.html",
    manifest := some "https://chart.example/app.json",
    intents := some [{ name := "ViewChart" }] }

/-- State in which raising ViewChart resolves to exactly that one
directory candidate. -/
def c4st : BrokerState :=
  { systemChannels := [], directory := [c4entry],
    connected := [("r1", { senderId := "r", tabId := 1 })], channelOf := [],
    contexts := [("default", [])], contextListeners := [("default", [])],
    intentListeners := [], tabChannels := [] }

/-- Claim C4, evaluated at the failing input: the post-selection
`resolveIntent` path does produce the claim's example URL
"app://open?sym=MSFT", but the single-candidate `raiseIntent` path for
the very same manifest throws a `ReferenceError` — its param loop reads
the undeclared identifier `contentManifest` — so no substitution or
launch ever happens there; and even on the working path `replace`
substitutes only the FIRST occurrence of a placeholder, not every one. -/
theorem c4_template_substitution :
    resolveIntentDirectory c4mD "ChartApp" "ViewChart" c4ctx =
      ([Effect.openWindow (some "app://open?sym=MSFT") "ChartApp"], none) ∧
    raiseIntent c4st "ViewChart" c4ctx (fun _ => some c4mD) =
      ⟨c4st, [], some JsErr.referenceError⟩ ∧
    substTemplate [("symbol", some "AAPL")]
      "go?a=$\x7bsymbol\x7d&b=$\x7bsymbol\x7d" = "go?a=AAPL&b=$\x7bsymbol\x7d" := by
  decide

end FDC3
